import Mathlib

/-!
Verification development for the hensler-photography image ingestion
pipeline. The definitions below are a shallow embedding of the Python
sources, primarily:

  api/routes/ingestion.py        (ingest_image, the orchestrator)
  api/services/image_processor.py (generate_variants)
  api/services/claude_vision.py   (analyze_image, _get_fallback_metadata)
  api/errors.py                   (error codes)

External collaborators (hashlib, python-slugify, PIL decoding, the
relational store, the Claude API) are modelled at their interface
boundary: deterministic library functions become function-typed
parameters of the environment, and the nondeterministic outcomes of
I/O (which exception a call raises, whether an encode succeeds) become
explicit outcome parameters. Machine arithmetic on image dimensions is
modelled over exact naturals; Python int() truncation of a nonnegative
ratio is natural-number division.
-/

namespace Photo

/-! ## Python string primitives used by the pipeline -/

/-- Models Python str.lower() for the ASCII strings handled here. -/
def lowerStr (s : String) : String := ⟨s.data.map Char.toLower⟩

/-- Accumulator loop for pathName: keeps the characters seen since the
last slash, in reverse. -/
def pathNameGo : List Char → List Char → List Char
  | [], acc => acc.reverse
  | c :: cs, acc => if c = '/' then pathNameGo cs [] else pathNameGo cs (c :: acc)

/-- Models pathlib Path(p).name: the final path component after the
last slash. -/
def pathName (p : String) : String := ⟨pathNameGo p.data []⟩

/-- Index of the last dot in a character list, if any. -/
def lastDotIdxGo : List Char → Nat → Option Nat → Option Nat
  | [], _, best => best
  | c :: cs, i, best => lastDotIdxGo cs (i + 1) (if c = '.' then some i else best)

/-- Index of the last dot in a character list, if any. -/
def lastDotIdx (l : List Char) : Option Nat := lastDotIdxGo l 0 none

/-- Models pathlib Path(name).suffix on a bare file name: the extension
including its dot, provided the last dot is neither the first nor the
last character; otherwise the empty string. -/
def pySuffix (name : String) : String :=
  match lastDotIdx name.data with
  | none => ""
  | some i => if 0 < i ∧ i + 1 < name.data.length then ⟨name.data.drop i⟩ else ""

/-- Models pathlib Path(name).stem on a bare file name: the name with
pySuffix removed. -/
def pyStem (name : String) : String :=
  match lastDotIdx name.data with
  | none => name
  | some i => if 0 < i ∧ i + 1 < name.data.length then ⟨name.data.take i⟩ else name

/-- Models Python s.replace(a, b) for single-character patterns, which
is a character map. -/
def replaceChar (a b : Char) (s : String) : String :=
  ⟨s.data.map fun c => if c = a then b else c⟩

/-- Worker for pyTitle. The Boolean argument records whether the
previous character was a letter: the first letter of each maximal
letter group is uppercased, subsequent letters are lowercased,
non-letters pass through. -/
def pyTitleGo : Bool → List Char → List Char
  | _, [] => []
  | prevAlpha, c :: cs =>
    (if c.isAlpha then (if prevAlpha then c.toLower else c.toUpper) else c)
      :: pyTitleGo c.isAlpha cs

/-- Models Python str.title() for ASCII text. -/
def pyTitle (s : String) : String := ⟨pyTitleGo false s.data⟩

/-- Filename humanization used by the caption fallback in
claude_vision.py line 412: stem.replace("_", " ").replace("-", " ").title(). -/
def humanize (s : String) : String :=
  pyTitle (replaceChar '-' ' ' (replaceChar '_' ' ' s))

/-! ## Error codes (api/errors.py) -/

/-- Error codes from the ErrorCode enum of api/errors.py, restricted to
the codes the ingestion pipeline can emit. Each constructor names the
code attached by the corresponding error constructor function. -/
inductive Err where
  | AUTH_MISSING_KEY
  | AUTH_INVALID_KEY
  | RATE_CLAUDE_LIMIT
  | EXTERNAL_CLAUDE_ERROR
  | VALIDATION_INVALID_TYPE
  | VALIDATION_FILE_TOO_LARGE
  | PROCESSING_IMAGE_FAILED
  | DATABASE_CONNECTION_FAILED
  | INTERNAL_ERROR
deriving DecidableEq

/-- String value of an error code, as serialized by ErrorCode.value and
embedded in warning dictionaries by ingest_image. -/
def errStr : Err → String
  | .AUTH_MISSING_KEY => "AUTH_MISSING_KEY"
  | .AUTH_INVALID_KEY => "AUTH_INVALID_KEY"
  | .RATE_CLAUDE_LIMIT => "RATE_CLAUDE_LIMIT"
  | .EXTERNAL_CLAUDE_ERROR => "EXTERNAL_CLAUDE_ERROR"
  | .VALIDATION_INVALID_TYPE => "VALIDATION_INVALID_TYPE"
  | .VALIDATION_FILE_TOO_LARGE => "VALIDATION_FILE_TOO_LARGE"
  | .PROCESSING_IMAGE_FAILED => "PROCESSING_IMAGE_FAILED"
  | .DATABASE_CONNECTION_FAILED => "DATABASE_CONNECTION_FAILED"
  | .INTERNAL_ERROR => "INTERNAL_ERROR"

/-! ## Caption generator adapter (api/services/claude_vision.py) -/

/-- Enrichment metadata record: the dictionary shape produced by
analyze_image on both its success and fallback paths. -/
structure Metadata where
  title : String
  caption : String
  description : String
  tags : List String
  category : String
deriving DecidableEq

/-- Shape of the tags field of a parsed Claude JSON response: absent,
a comma-separated string, or a list. -/
inductive TagsField where
  | absent
  | str (s : String)
  | arr (l : List String)
deriving DecidableEq

/-- Parsed JSON object returned by the Claude API, with each required
field possibly missing (claude_vision.py lines 327-338 default them). -/
structure RawMeta where
  title : Option String
  caption : Option String
  description : Option String
  tags : TagsField
  category : Option String
deriving DecidableEq

/-- Normalization of a parsed response: a string tags field is split on
commas and stripped, a missing tags field becomes the empty list, and
every other missing required field becomes the empty string
(claude_vision.py lines 327-338). -/
def normalizeResp (r : RawMeta) : Metadata :=
  { title := r.title.getD ""
    caption := r.caption.getD ""
    description := r.description.getD ""
    tags :=
      match r.tags with
      | .absent => []
      | .str s => (s.splitOn ",").map String.trim
      | .arr l => l
    category := r.category.getD "" }

/-- Models _get_fallback_metadata (claude_vision.py lines 409-417): the
deterministic fallback payload derived from the image path handed to
analyze_image. Note the title humanizes the stem of image_path, which
in the ingestion flow is the stored content-addressed filename. -/
def get_fallback_metadata (image_path : String) : Metadata :=
  { title := humanize (pyStem (pathName image_path))
    caption := "AI analysis unavailable"
    description := ""
    tags := []
    category := "uncategorized" }

/-- Outcome of one call to the Claude API boundary, covering every
control path of analyze_image (claude_vision.py lines 130-406): the
missing-credential early return, each caught exception class, and a
successfully parsed response. -/
inductive AnalyzeOutcome where
  | noApiKey
  | authError
  | rateLimit
  | apiError
  | jsonDecodeError
  | unexpectedError
  | ok (resp : RawMeta)
deriving DecidableEq

/-- Models analyze_image (claude_vision.py lines 130-406) as a total
function of the call outcome: every failure mode is converted to the
typed error of its branch paired with the deterministic fallback
payload, and a parsed response is normalized and paired with none.
Totality of this definition embeds the property that no exception
escapes the adapter: every raised exception class is a constructor of
AnalyzeOutcome and every constructor produces a return value. -/
def analyze_image (o : AnalyzeOutcome) (image_path : String) : Metadata × Option Err :=
  match o with
  | .noApiKey => (get_fallback_metadata image_path, some .AUTH_MISSING_KEY)
  | .authError => (get_fallback_metadata image_path, some .AUTH_INVALID_KEY)
  | .rateLimit => (get_fallback_metadata image_path, some .RATE_CLAUDE_LIMIT)
  | .apiError => (get_fallback_metadata image_path, some .EXTERNAL_CLAUDE_ERROR)
  | .jsonDecodeError => (get_fallback_metadata image_path, some .EXTERNAL_CLAUDE_ERROR)
  | .unexpectedError => (get_fallback_metadata image_path, some .EXTERNAL_CLAUDE_ERROR)
  | .ok resp => (normalizeResp resp, none)

/-! ## Rendition generator (api/services/image_processor.py) -/

/-- One generated rendition record, as appended to the variants list by
generate_variants (image_processor.py lines 102-111). -/
structure Variant where
  format : String
  size : String
  filename : String
  width : Nat
  height : Nat
  file_size : Nat
deriving DecidableEq

/-- Fixed size classes of generate_variants (image_processor.py line 41),
in Python dict insertion order. -/
def sizes : List (String × Nat) := [("large", 1200), ("medium", 800), ("thumbnail", 400)]

/-- Variant output filename (image_processor.py line 94). -/
def variantFilename (base_name size_name : String) : String :=
  base_name ++ "_" ++ size_name ++ ".webp"

/-- Skip rule of image_processor.py line 73: a size class is skipped
when the original is no wider than the target, except thumbnails. -/
def skipped (original_width target_width : Nat) (size_name : String) : Prop :=
  original_width ≤ target_width ∧ size_name ≠ "thumbnail"

instance (w tw : Nat) (n : String) : Decidable (skipped w tw n) := by
  unfold skipped; infer_instance

/-- Models one iteration of the size-class loop of generate_variants
(image_processor.py lines 70-125) over the decoded dimensions of the
original: the skip rule of line 73, then the resize-save-stat attempt
whose per-class success is named by encodeOk (a failed class is
logged and skipped, not fatal). Heights follow line 88,
int(new_width / aspect_ratio), which truncates: over exact rationals
this is new_width * original_height / original_width rounded toward
zero, embedded as natural division. statSize supplies the on-disk byte
size of each written file (line 100). -/
def variantFor (original_width original_height : Nat) (base_name : String)
    (encodeOk : String → Bool) (statSize : String → Nat) (p : String × Nat) :
    Option Variant :=
  if skipped original_width p.2 p.1 then none
  else if encodeOk p.1 then
    some { format := "webp", size := p.1
           filename := variantFilename base_name p.1
           width := min p.2 original_width
           height := min p.2 original_width * original_height / original_width
           file_size := statSize (variantFilename base_name p.1) }
  else none

/-- Loop body result list of generate_variants: the renditions of the
size classes that are neither skipped nor individually failed. -/
def variantList (original_width original_height : Nat) (base_name : String)
    (encodeOk : String → Bool) (statSize : String → Nat) : List Variant :=
  sizes.filterMap (variantFor original_width original_height base_name encodeOk statSize)

/-- Models generate_variants (image_processor.py lines 21-196). openOk
is false when Image.open raises (missing or corrupt file: the except
branches at lines 149-196, each returning the empty list with a typed
processing error). Otherwise the size-class loop runs and, if no
variants result, the empty list is returned with a processing error
(lines 127-140). -/
def generate_variants (original_width original_height : Nat) (base_name : String)
    (encodeOk : String → Bool) (openOk : Bool) (statSize : String → Nat) :
    List Variant × Option Err :=
  if openOk then
    if (variantList original_width original_height base_name encodeOk statSize).isEmpty then
      ([], some .PROCESSING_IMAGE_FAILED)
    else (variantList original_width original_height base_name encodeOk statSize, none)
  else ([], some .PROCESSING_IMAGE_FAILED)

/-- Modelled from the spec: the height formula claimed in section 4.2,
new_height = round(new_width / original_aspect_ratio), read as ordinary
half-up rounding of the exact ratio new_width * height / width. Stated
for comparison with the truncating computation of the source. -/
def specRoundHeight (original_width original_height new_width : Nat) : Nat :=
  (2 * new_width * original_height + original_width) / (2 * original_width)

/-! ## Slug allocator (api/routes/ingestion.py lines 199-209) -/

/-- Models the SQL predicate slug LIKE base || percent for a wildcard-free
base: a character-level prefix test. -/
def slugLike (base s : String) : Bool := base.data.isPrefixOf s.data

/-- Models the slug allocation of ingest_image (ingestion.py lines
204-209): count the slugs of this owner having the base as a prefix;
if any exist return base-(count+1), else the base itself. -/
def allocate_slug (existing : List String) (slug_base : String) : String :=
  let count := (existing.filter fun s => slugLike slug_base s).length
  if count > 0 then slug_base ++ "-" ++ toString (count + 1) else slug_base

/-! ## Content addresser (api/routes/ingestion.py lines 100-104) -/

/-- Models the stored filename construction of ingestion.py line 104:
timestamp, underscore, the first 16 hex digits of the SHA-256 of the
raw bytes, then the lowercased extension. The digest function of
hashlib is an external deterministic library routine, passed here as a
function of the byte list. -/
def stored_filename (sha16 : List Nat → String) (timestamp : String)
    (contents : List Nat) (ext : String) : String :=
  timestamp ++ "_" ++ sha16 contents ++ ext

/-! ## Ingestion orchestrator (api/routes/ingestion.py, ingest_image) -/

/-- Upload candidate as received by ingest_image: raw bytes, the
declared content type, and the declared filename. -/
structure Upload where
  contents : List Nat
  content_type : String
  filename : String

/-- Accepted declared content types (ingestion.py line 63). -/
def allowed_types : List String := ["image/jpeg", "image/jpg", "image/png"]

/-- Maximum accepted byte length, 20 MiB (ingestion.py line 79). -/
def max_size : Nat := 20 * 1024 * 1024

/-- Asset store path of a stored gallery file (ingestion.py line 109). -/
def galleryPath (name : String) : String := "/app/assets/gallery/" ++ name

/-- PIL format to MIME mapping with the jpeg default
(ingestion.py lines 126-132). -/
def format_to_mime (f : String) : String :=
  if f = "jpeg" then "image/jpeg"
  else if f = "png" then "image/png"
  else if f = "gif" then "image/gif"
  else if f = "webp" then "image/webp"
  else "image/jpeg"

/-- Format sniffing warnings (ingestion.py lines 118-148): when PIL
decodes the stored file (detected is some format), a FORMAT_MISMATCH
warning is appended exactly when the mapped MIME string differs from
the declared content type, compared as strings; when decoding fails
the declared type is kept and no warning is produced. -/
def sniffWarnings (detected : Option String) (declared : String) : List String :=
  match detected with
  | none => []
  | some f => if format_to_mime f ≠ declared then ["FORMAT_MISMATCH"] else []

/-- Environment of one ingestion call: the timestamp taken at line 102,
the external deterministic library routines (hashlib digest prefix,
python-slugify), the PIL sniffing outcome, the caption API outcome,
the decoded original dimensions and the rendition generation outcomes,
the stat sizes, the slugs already stored for this owner, whether the
relational insert fails, and the row id it would return. -/
structure Env where
  timestamp : String
  sha16 : List Nat → String
  slug_of : String → String
  detected : Option String
  ai : AnalyzeOutcome
  width : Nat
  height : Nat
  encodeOk : String → Bool
  openOk : Bool
  statSize : String → Nat
  existingSlugs : List String
  dbFails : Bool
  nextId : Nat

/-- Persisted image row of the insert at ingestion.py lines 212-248
together with its variant rows (lines 253-266), restricted to the
fields the claims mention. published, featured and available_for_sale
are inserted as 0. -/
structure ImageRecord where
  user_id : Nat
  filename : String
  slug : String
  original_filename : String
  title : String
  caption : String
  description : String
  tags : List String
  category : String
  file_size : Nat
  published : Bool
  featured : Bool
  variants : List Variant
deriving DecidableEq

/-- Response of ingest_image: either a structured error object with its
code, or the success payload of lines 312-336 (warnings key present
only when the list is nonempty; here the list itself carries that
information). -/
inductive Response where
  | failure (code : Err)
  | ok (image_id : Nat) (slug : String) (filename : String) (title : String)
      (variants_generated : Nat) (warnings : List String)
deriving DecidableEq

/-- True on the success constructor. -/
def Response.isOk : Response → Bool
  | .ok .. => true
  | .failure _ => false

/-- Warning code list of a success response, empty on failures. -/
def Response.warningList : Response → List String
  | .ok _ _ _ _ _ ws => ws
  | .failure _ => []

/-- Title field of a success response, empty on failures. -/
def Response.titleOf : Response → String
  | .ok _ _ _ t _ _ => t
  | .failure _ => ""

/-- Result of one ingestion call: the response, the asset store content
after the call (a list of gallery filenames, writes appended in order),
and the image record inserted into the relational store, if any. -/
structure IngestResult where
  response : Response
  store : List String
  record : Option ImageRecord
deriving DecidableEq

/-- Stored content-addressed filename of the upload (ingestion.py lines
100-104): timestamp, underscore, 16-hex-digit digest prefix, lowercased
declared extension. -/
def ingestStoredName (env : Env) (file : Upload) : String :=
  stored_filename env.sha16 env.timestamp file.contents
    (lowerStr (pySuffix (pathName file.filename)))

/-- Caption generation step of ingest_image (lines 163-168): the
adapter is called on the stored file path, so its fallback derives from
the stored content-addressed name. -/
def ingestAi (env : Env) (file : Upload) : Metadata × Option Err :=
  analyze_image env.ai (galleryPath (ingestStoredName env file))

/-- Rendition generation step of ingest_image (lines 180-184):
generate_variants on the stored file, with the stored name stem as the
variant base name. -/
def ingestVariants (env : Env) (file : Upload) : List Variant × Option Err :=
  generate_variants env.width env.height (pyStem (ingestStoredName env file))
    env.encodeOk env.openOk env.statSize

/-- Warnings accumulated by ingest_image in order: the format sniff
warning (lines 139-146), then the caption error demoted to a warning
(lines 170-176), then the rendition error demoted to a warning
(lines 186-193). -/
def ingestWarnings (env : Env) (file : Upload) : List String :=
  sniffWarnings env.detected file.content_type
    ++ (match (ingestAi env file).2 with | some e => [errStr e] | none => [])
    ++ (match (ingestVariants env file).2 with | some e => [errStr e] | none => [])

/-- Asset store content after the original write of line 115 and the
variant writes performed inside generate_variants. -/
def ingestStore (env : Env) (file : Upload) (store0 : List String) : List String :=
  store0 ++ [ingestStoredName env file]
    ++ (ingestVariants env file).1.map fun v => v.filename

/-- Slug assembled at lines 199-209: the slugified caption title (the
metadata dictionary always carries a title key, so the filename-stem
default of the dict lookup is never taken), passed through the
allocator over the slugs already stored for this owner. -/
def ingest_slug (env : Env) (file : Upload) : String :=
  allocate_slug env.existingSlugs (env.slug_of (ingestAi env file).1.title)

/-- Image row built by the insert at lines 212-248. -/
def ingestRecord (env : Env) (file : Upload) (user_id : Nat) : ImageRecord :=
  { user_id := user_id
    filename := ingestStoredName env file
    slug := ingest_slug env file
    original_filename := file.filename
    title := (ingestAi env file).1.title
    caption := (ingestAi env file).1.caption
    description := (ingestAi env file).1.description
    tags := (ingestAi env file).1.tags
    category := (ingestAi env file).1.category
    file_size := file.contents.length
    published := false
    featured := false
    variants := (ingestVariants env file).1 }

/-- Post-validation pipeline of ingest_image (lines 99-336): save the
original, sniff, caption with fallback, generate renditions, allocate
the slug, then insert. On insert failure (lines 275-295) the stored
original file alone is unlinked from the asset store and a typed
database error is returned; otherwise the record and its variant rows
are committed and the success payload assembled. -/
def ingest_pipeline (env : Env) (file : Upload) (user_id : Nat) (store0 : List String) :
    IngestResult :=
  if env.dbFails then
    { response := .failure .DATABASE_CONNECTION_FAILED
      store := (ingestStore env file store0).erase (ingestStoredName env file)
      record := none }
  else
    { response := .ok env.nextId (ingest_slug env file) (ingestStoredName env file)
        (ingestAi env file).1.title (ingestVariants env file).1.length
        (ingestWarnings env file)
      store := ingestStore env file store0
      record := some (ingestRecord env file user_id) }

/-- Models ingest_image (ingestion.py lines 37-359): the declared
content type is checked first (line 64), then the byte length
(line 80); both rejections return a typed validation error before any
side effect. Validated uploads run the pipeline. -/
def ingest_image (env : Env) (file : Upload) (user_id : Nat) (store0 : List String) :
    IngestResult :=
  if ¬ (file.content_type ∈ allowed_types) then
    { response := .failure .VALIDATION_INVALID_TYPE, store := store0, record := none }
  else if file.contents.length > max_size then
    { response := .failure .VALIDATION_FILE_TOO_LARGE, store := store0, record := none }
  else ingest_pipeline env file user_id store0

/-! ## Concrete instances used by counterexamples and witnesses -/

/-- Baseline environment: a fixed timestamp, a fixed digest value, the
identity slugifier, a JPEG sniff, the missing-credential caption
outcome, a 3000 by 2000 original, all renditions succeeding, an empty
slug table and a healthy relational store. -/
def envA : Env :=
  { timestamp := "20240101_120000"
    sha16 := fun _ => "0011223344556677"
    slug_of := fun s => s
    detected := some "jpeg"
    ai := .noApiKey
    width := 3000
    height := 2000
    encodeOk := fun _ => true
    openOk := true
    statSize := fun _ => 0
    existingSlugs := []
    dbFails := false
    nextId := 1 }

/-- Environment in which Image.open fails inside generate_variants, so
rendition generation yields zero variants. -/
def envC1 : Env := { envA with openOk := false }

/-- Environment in which the relational insert fails. -/
def envC2 : Env := { envA with dbFails := true }

/-- Small valid JPEG upload with a user-supplied display filename. -/
def uploadSmall : Upload :=
  { contents := [9, 9, 9], content_type := "image/jpeg", filename := "My Photo.jpg" }

/-- Upload exceeding the 20 MiB limit by one byte, with an accepted
declared type. -/
def uploadBig : Upload :=
  { contents := List.replicate (max_size + 1) 0
    content_type := "image/jpeg"
    filename := "big.jpg" }

/-- Upload declared with the accepted alias type image/jpg whose bytes
decode as a JPEG. -/
def uploadJpg : Upload :=
  { contents := [1, 2, 3], content_type := "image/jpg", filename := "pic.jpg" }

/-! ## Helper lemmas -/

/-- A list is a prefix of itself under the executable prefix test. -/
theorem isPrefixOf_rfl (l : List Char) : l.isPrefixOf l = true := by
  induction l with
  | nil => rfl
  | cons a as ih => simp [List.isPrefixOf, ih]

/-- No error code serializes to the ad-hoc FORMAT_MISMATCH warning
string. -/
theorem errStr_ne_formatMismatch (e : Err) : errStr e ≠ "FORMAT_MISMATCH" := by
  cases e <;> decide

/-- Whenever analyze_image reports an error, its metadata component is
the deterministic fallback for the supplied path. -/
theorem analyze_image_fallback (o : AnalyzeOutcome) (p : String) (e : Err)
    (h : (analyze_image o p).2 = some e) :
    (analyze_image o p).1 = get_fallback_metadata p := by
  cases o <;> simp [analyze_image] at h ⊢

/-- Validated uploads run the post-validation pipeline. -/
theorem ingest_validated (env : Env) (file : Upload) (uid : Nat) (store0 : List String)
    (hmem : file.content_type ∈ allowed_types) (hsize : file.contents.length ≤ max_size) :
    ingest_image env file uid store0 = ingest_pipeline env file uid store0 := by
  unfold ingest_image
  rw [if_neg (not_not_intro hmem), if_neg (by omega)]

/-! ## Claim C3: slug uniqueness -/

/-- C3 counterexample: with the slug base-2 already stored for the
owner, the allocator counts one prefix match and returns base-2 again,
a slug already stored at the time of the check — the allocator does not
guarantee uniqueness. -/
theorem c3_counterexample :
    allocate_slug ["base-2"] "base" = "base-2" ∧ "base-2" ∈ ["base-2"] :=
  ⟨by decide, by decide⟩

/-- C3 amended: when no slug stored for the owner has the candidate
base as a prefix, the allocator returns the base unmodified, and that
slug is distinct from every slug stored for the owner at the time of
the check; when a prefix match exists the returned base-(count+1) is
not guaranteed distinct. -/
theorem c3_unique_when_no_prefix_match (existing : List String) (base : String)
    (h : (existing.filter fun s => slugLike base s).length = 0) :
    allocate_slug existing base ∉ existing := by
  intro hmem
  have hres : allocate_slug existing base = base := by
    simp only [allocate_slug]
    rw [h]
    simp
  rw [hres] at hmem
  have hfil : base ∈ existing.filter fun s => slugLike base s :=
    List.mem_filter.mpr ⟨hmem, isPrefixOf_rfl base.data⟩
  have hpos := List.length_pos.mpr (List.ne_nil_of_mem hfil)
  omega

/-- C3 witness: concrete application with an unrelated stored slug. -/
theorem c3_witness :
    ((["sunset"].filter fun s => slugLike "pic" s).length = 0)
    ∧ allocate_slug ["sunset"] "pic" ∉ ["sunset"] :=
  ⟨by decide, c3_unique_when_no_prefix_match ["sunset"] "pic" (by decide)⟩

/-! ## Claim C5: rendition heights -/

/-- C5 counterexample: a 3000 by 2000 original yields heights 800, 533
and 266 — the thumbnail height is the truncation of 400 divided by 1.5,
not the half-up rounding 267 the claim states. -/
theorem c5_counterexample :
    ((generate_variants 3000 2000 "img" (fun _ => true) true fun _ => 0).1.map
        fun v => (v.width, v.height)) = [(1200, 800), (800, 533), (400, 266)]
    ∧ specRoundHeight 3000 2000 400 = 267 ∧ (266 : Nat) ≠ 267 :=
  ⟨by decide, by decide, by decide⟩

/-- C5 amended: every rendition height is the truncation of
new_width divided by the original aspect ratio (Python int(), embedded
as natural division of the exact ratio), and a 3000 by 2000 original
yields the three widths 1200, 800 and 400 with heights 800, 533
and 266. -/
theorem c5_heights_truncate :
    (∀ w h base ok opn fs v, v ∈ (generate_variants w h base ok opn fs).1 →
        v.height = v.width * h / w)
    ∧ ((generate_variants 3000 2000 "img" (fun _ => true) true fun _ => 0).1.map
        fun v => (v.width, v.height)) = [(1200, 800), (800, 533), (400, 266)] := by
  constructor
  · intro w h base ok opn fs v hv
    unfold generate_variants at hv
    split at hv
    · split at hv
      · simp at hv
      · unfold variantList at hv
        rw [List.mem_filterMap] at hv
        obtain ⟨a, ha, hfa⟩ := hv
        simp only [sizes, List.mem_cons, List.mem_singleton, List.not_mem_nil, or_false] at ha
        rcases ha with rfl | rfl | rfl <;>
          (unfold variantFor at hfa
           split_ifs at hfa <;> injection hfa with hfa <;> subst hfa <;> rfl)
    · simp at hv
  · decide

/-- C5 witness: the concrete thumbnail rendition of a 3000 by 2000
original satisfies the truncation formula. -/
theorem c5_witness :
    ((⟨"webp", "thumbnail", "img_thumbnail.webp", 400, 266, 0⟩ : Variant)
      ∈ (generate_variants 3000 2000 "img" (fun _ => true) true fun _ => 0).1)
    ∧ (266 : Nat) = 400 * 2000 / 3000 :=
  ⟨by decide,
    c5_heights_truncate.1 3000 2000 "img" (fun _ => true) true (fun _ => 0)
      ⟨"webp", "thumbnail", "img_thumbnail.webp", 400, 266, 0⟩ (by decide)⟩

/-! ## Claim C6: small originals and the no-upscale policy -/

/-- C6: for an original strictly wider than 400 and at most 800 pixels
wide, with every encode attempt succeeding, exactly the thumbnail
rendition is produced, at width min(400, width); for every original, no
produced rendition is wider than the original; and the thumbnail class
is never skipped, any produced thumbnail having width
min(400, original width). -/
theorem c6_thumbnail_policy :
    (∀ w h base fs, 400 < w → w ≤ 800 →
        ((generate_variants w h base (fun _ => true) true fs).1.map Variant.size
            = ["thumbnail"]
          ∧ ∀ v ∈ (generate_variants w h base (fun _ => true) true fs).1,
              v.width = min 400 w))
    ∧ (∀ w h base ok opn fs v, v ∈ (generate_variants w h base ok opn fs).1 → v.width ≤ w)
    ∧ (∀ w, ¬ skipped w 400 "thumbnail")
    ∧ (∀ w h base ok opn fs v, v ∈ (generate_variants w h base ok opn fs).1 →
        v.size = "thumbnail" → v.width = min 400 w) := by
  refine ⟨?_, ?_, ?_, ?_⟩
  · intro w h base fs h400 h800
    have h1 : skipped w 1200 "large" := ⟨by omega, by decide⟩
    have h2 : skipped w 800 "medium" := ⟨h800, by decide⟩
    have h3 : ¬ skipped w 400 "thumbnail" := fun hc => hc.2 rfl
    have hvl : variantList w h base (fun _ => true) fs =
        [{ format := "webp", size := "thumbnail"
           filename := variantFilename base "thumbnail"
           width := min 400 w, height := min 400 w * h / w
           file_size := fs (variantFilename base "thumbnail") }] := by
      unfold variantList variantFor sizes
      simp [h1, h2, h3]
    have hgen : (generate_variants w h base (fun _ => true) true fs).1 =
        [{ format := "webp", size := "thumbnail"
           filename := variantFilename base "thumbnail"
           width := min 400 w, height := min 400 w * h / w
           file_size := fs (variantFilename base "thumbnail") }] := by
      unfold generate_variants
      rw [hvl]
      simp
    constructor
    · rw [hgen]; rfl
    · intro v hv
      rw [hgen] at hv
      simp only [List.mem_singleton] at hv
      subst hv
      rfl
  · intro w h base ok opn fs v hv
    unfold generate_variants at hv
    split at hv
    · split at hv
      · simp at hv
      · unfold variantList at hv
        rw [List.mem_filterMap] at hv
        obtain ⟨a, ha, hfa⟩ := hv
        simp only [sizes, List.mem_cons, List.mem_singleton, List.not_mem_nil, or_false] at ha
        rcases ha with rfl | rfl | rfl <;>
          (unfold variantFor at hfa
           split_ifs at hfa <;> injection hfa with hfa <;> subst hfa <;>
             exact Nat.min_le_right _ _)
    · simp at hv
  · intro w hc
    exact hc.2 rfl
  · intro w h base ok opn fs v hv
    unfold generate_variants at hv
    split at hv
    · split at hv
      · simp at hv
      · unfold variantList at hv
        rw [List.mem_filterMap] at hv
        obtain ⟨a, ha, hfa⟩ := hv
        simp only [sizes, List.mem_cons, List.mem_singleton, List.not_mem_nil, or_false] at ha
        rcases ha with rfl | rfl | rfl <;>
          (unfold variantFor at hfa
           split_ifs at hfa <;> injection hfa with hfa <;> subst hfa <;> intro hs <;>
             first
               | rfl
               | simp at hs)
    · simp at hv

/-- C6 witness: a 600 by 400 original produces exactly the thumbnail
rendition. -/
theorem c6_witness :
    ((400 : Nat) < 600 ∧ (600 : Nat) ≤ 800)
    ∧ (generate_variants 600 400 "b" (fun _ => true) true fun _ => 0).1.map Variant.size
        = ["thumbnail"] :=
  ⟨⟨by decide, by decide⟩,
    (c6_thumbnail_policy.1 600 400 "b" (fun _ => 0) (by decide) (by decide)).1⟩

/-! ## Claim C8: the caption adapter never raises -/

/-- C8: analyze_image is total over every outcome of the external call
(no exception propagates: each raised exception class is converted to a
return value). The error component is none exactly on a parsed
response; on every failure outcome the metadata component is the
deterministic filename-derived fallback record, whose five fields are
title, caption, description, tags and category by the shape of
Metadata; a parsed response is returned normalized with no error. -/
theorem c8_adapter_total (o : AnalyzeOutcome) (p : String) :
    ((analyze_image o p).2 = none ↔ ∃ r, o = .ok r)
    ∧ ((analyze_image o p).2.isSome = true →
        (analyze_image o p).1 = get_fallback_metadata p)
    ∧ (∀ r, o = .ok r → analyze_image o p = (normalizeResp r, none)) := by
  cases o <;> simp [analyze_image]

/-- C8 witness: the missing-credential outcome returns the fallback
payload with an error present. -/
theorem c8_witness :
    ((analyze_image .noApiKey "/app/assets/gallery/a.jpg").2.isSome = true)
    ∧ (analyze_image .noApiKey "/app/assets/gallery/a.jpg").1
        = get_fallback_metadata "/app/assets/gallery/a.jpg" :=
  ⟨by decide, (c8_adapter_total .noApiKey "/app/assets/gallery/a.jpg").2.1 (by decide)⟩

/-! ## Claim C9: stored filename structure -/

/-- C9 counterexample: byte-identical content ingested at the same
timestamp under declared filenames with different extensions produces
different stored filenames, so filenames do not differ exactly when the
timestamp components differ. -/
theorem c9_counterexample :
    ¬ ((stored_filename (fun _ => "0011223344556677") "20240101_120000" [1, 2, 3] ".jpg"
          ≠ stored_filename (fun _ => "0011223344556677") "20240101_120000" [1, 2, 3] ".png")
        ↔ ("20240101_120000" : String) ≠ "20240101_120000") := by
  decide

/-- C9 amended: for byte-identical content and timestamps of equal
length (the strftime component has fixed length 15), the stored
filenames coincide exactly when both the timestamp components and the
extension components coincide; and the content-hash component is a
deterministic function of the bytes, hence identical across runs on
identical bytes. -/
theorem c9_filename_structure (f : List Nat → String) (ts1 ts2 : String)
    (c : List Nat) (e1 e2 : String) (hlen : ts1.length = ts2.length) :
    (stored_filename f ts1 c e1 = stored_filename f ts2 c e2 ↔ ts1 = ts2 ∧ e1 = e2)
    ∧ ∀ c1 c2 : List Nat, c1 = c2 → f c1 = f c2 := by
  constructor
  · constructor
    · intro heq
      have hdata : ts1.data ++ (("_" ++ f c).data ++ e1.data)
          = ts2.data ++ (("_" ++ f c).data ++ e2.data) := by
        have h := congrArg String.data heq
        simpa only [stored_filename, String.append_assoc] using h
      have hinj := List.append_inj hdata hlen
      exact ⟨String.ext hinj.1, String.ext (List.append_cancel_left hinj.2)⟩
    · rintro ⟨rfl, rfl⟩
      rfl
  · intro c1 c2 h
    rw [h]

/-- C9 witness: concrete instantiation with equal-length timestamps. -/
theorem c9_witness :
    (("20240101_120000" : String).length = ("20240102_130000" : String).length)
    ∧ (stored_filename (fun _ => "0011223344556677") "20240101_120000" [1] ".jpg"
        = stored_filename (fun _ => "0011223344556677") "20240102_130000" [1] ".jpg"
      ↔ ("20240101_120000" : String) = "20240102_130000" ∧ (".jpg" : String) = ".jpg") :=
  ⟨by decide,
    (c9_filename_structure (fun _ => "0011223344556677") "20240101_120000" "20240102_130000"
      [1] ".jpg" ".jpg" (by decide)).1⟩

/-! ## Claim C1: zero renditions -/

/-- C1 counterexample: with Image.open failing inside generate_variants
(zero renditions), the concrete ingestion still succeeds, an image
record is created, and the stored original remains in the asset store,
contradicting the claimed fail-and-rollback behaviour. -/
theorem c1_counterexample :
    (ingestVariants envC1 uploadSmall).1.length = 0
    ∧ (ingest_image envC1 uploadSmall 1 []).response.isOk = true
    ∧ (ingest_image envC1 uploadSmall 1 []).record.isSome = true
    ∧ ingestStoredName envC1 uploadSmall ∈ (ingest_image envC1 uploadSmall 1 []).store :=
  ⟨by decide, by decide, by decide, by decide⟩

/-- C1 amended: when rendition generation produces zero successful
renditions, ingest_image does not fail; the processing error is demoted
to a warning, an image record with zero renditions is inserted, and the
stored original remains in the asset store. -/
theorem c1_zero_renditions_demoted (env : Env) (file : Upload) (uid : Nat)
    (store0 : List String) (e : Err)
    (hmem : file.content_type ∈ allowed_types)
    (hsize : file.contents.length ≤ max_size)
    (hdb : env.dbFails = false)
    (hgv : ingestVariants env file = ([], some e)) :
    (ingest_image env file uid store0).response.isOk = true
    ∧ errStr e ∈ (ingest_image env file uid store0).response.warningList
    ∧ (∃ r, (ingest_image env file uid store0).record = some r ∧ r.variants = [])
    ∧ ingestStoredName env file ∈ (ingest_image env file uid store0).store := by
  rw [ingest_validated env file uid store0 hmem hsize]
  simp only [ingest_pipeline, hdb, Bool.false_eq_true, if_false]
  refine ⟨rfl, ?_, ⟨ingestRecord env file uid, rfl, ?_⟩, ?_⟩
  · simp only [Response.warningList, ingestWarnings, hgv]
    simp
  · simp only [ingestRecord, hgv]
  · simp only [ingestStore, hgv]
    simp

/-- C1 witness: concrete application of the amended claim. -/
theorem c1_witness :
    (uploadSmall.content_type ∈ allowed_types
      ∧ uploadSmall.contents.length ≤ max_size
      ∧ envC1.dbFails = false
      ∧ ingestVariants envC1 uploadSmall = ([], some .PROCESSING_IMAGE_FAILED))
    ∧ errStr .PROCESSING_IMAGE_FAILED
        ∈ (ingest_image envC1 uploadSmall 1 []).response.warningList := by
  have h4 : ingestVariants envC1 uploadSmall = ([], some .PROCESSING_IMAGE_FAILED) := by
    decide
  exact ⟨⟨by decide, by decide, by decide, h4⟩,
    (c1_zero_renditions_demoted envC1 uploadSmall 1 [] .PROCESSING_IMAGE_FAILED
      (by decide) (by decide) (by decide) h4).2.1⟩

/-! ## Claim C2: database failure rollback -/

/-- C2 counterexample: with the relational insert failing after three
renditions were written, the concrete ingestion returns the typed
database error but the asset store still holds all three rendition
files — only the original was deleted. -/
theorem c2_counterexample :
    (ingest_image envC2 uploadSmall 1 []).response = .failure .DATABASE_CONNECTION_FAILED
    ∧ (ingest_image envC2 uploadSmall 1 []).store
        = ["20240101_120000_0011223344556677_large.webp",
           "20240101_120000_0011223344556677_medium.webp",
           "20240101_120000_0011223344556677_thumbnail.webp"]
    ∧ "20240101_120000_0011223344556677_large.webp"
        ∈ (ingest_image envC2 uploadSmall 1 []).store :=
  ⟨by decide, by decide, by decide⟩

/-- C2 amended: when the relational insert fails, ingest_image returns
the typed database error and removes exactly the stored original
filename from the asset store (a single erase of that name); rendition
files already written are not deleted. -/
theorem c2_db_failure_deletes_only_original (env : Env) (file : Upload) (uid : Nat)
    (store0 : List String)
    (hmem : file.content_type ∈ allowed_types)
    (hsize : file.contents.length ≤ max_size)
    (hdb : env.dbFails = true) :
    (ingest_image env file uid store0).response = .failure .DATABASE_CONNECTION_FAILED
    ∧ (ingest_image env file uid store0).store
        = (ingestStore env file store0).erase (ingestStoredName env file)
    ∧ (ingest_image env file uid store0).record = none := by
  rw [ingest_validated env file uid store0 hmem hsize]
  simp [ingest_pipeline, hdb]

/-- C2 witness: concrete application of the amended claim. -/
theorem c2_witness :
    (uploadSmall.content_type ∈ allowed_types
      ∧ uploadSmall.contents.length ≤ max_size
      ∧ envC2.dbFails = true)
    ∧ (ingest_image envC2 uploadSmall 1 []).store
        = (ingestStore envC2 uploadSmall []).erase (ingestStoredName envC2 uploadSmall) :=
  ⟨⟨by decide, by decide, by decide⟩,
    (c2_db_failure_deletes_only_original envC2 uploadSmall 1 []
      (by decide) (by decide) (by decide)).2.1⟩

/-! ## Claim C7: validation rejections -/

/-- C7: an upload whose declared type is not accepted or whose byte
length exceeds 20 MiB is rejected with a typed validation error before
any side effect: the asset store is unchanged and no record is
inserted. When the declared type is accepted, the oversize rejection
carries the VALIDATION_FILE_TOO_LARGE code (a bad declared type is
checked first and carries VALIDATION_INVALID_TYPE). -/
theorem c7_validation_rejects (env : Env) (file : Upload) (uid : Nat) (store0 : List String)
    (h : file.content_type ∉ allowed_types ∨ max_size < file.contents.length) :
    (∃ c, (ingest_image env file uid store0).response = .failure c
        ∧ (c = .VALIDATION_INVALID_TYPE ∨ c = .VALIDATION_FILE_TOO_LARGE))
    ∧ (ingest_image env file uid store0).store = store0
    ∧ (ingest_image env file uid store0).record = none
    ∧ (file.content_type ∈ allowed_types →
        (ingest_image env file uid store0).response = .failure .VALIDATION_FILE_TOO_LARGE) := by
  by_cases hmem : file.content_type ∈ allowed_types
  · have hsz : max_size < file.contents.length := h.resolve_left (not_not_intro hmem)
    unfold ingest_image
    rw [if_neg (not_not_intro hmem), if_pos hsz]
    exact ⟨⟨_, rfl, Or.inr rfl⟩, rfl, rfl, fun _ => rfl⟩
  · unfold ingest_image
    rw [if_pos hmem]
    exact ⟨⟨_, rfl, Or.inl rfl⟩, rfl, rfl, fun hm => absurd hm hmem⟩

/-- C7 witness: a valid-typed upload one byte over the limit is
rejected as too large with no writes. -/
theorem c7_witness :
    (uploadBig.content_type ∉ allowed_types ∨ max_size < uploadBig.contents.length)
    ∧ (ingest_image envA uploadBig 1 []).response = .failure .VALIDATION_FILE_TOO_LARGE
    ∧ (ingest_image envA uploadBig 1 []).store = []
    ∧ (ingest_image envA uploadBig 1 []).record = none := by
  have h : uploadBig.content_type ∉ allowed_types ∨ max_size < uploadBig.contents.length :=
    Or.inr (by simp [uploadBig])
  have hc := c7_validation_rejects envA uploadBig 1 [] h
  exact ⟨h, hc.2.2.2 (by decide), hc.2.1, hc.2.2.1⟩

/-! ## Claim C4: caption fallback -/

/-- C4 counterexample: with the captioning credential missing, the
concrete ingestion succeeds with exactly one captioning warning, but
the response title is the humanized stem of the stored
timestamp-and-hash filename, not the humanized stem of the
user-supplied filename My Photo.jpg. -/
theorem c4_counterexample :
    (ingest_image envA uploadSmall 1 []).response.warningList = [errStr .AUTH_MISSING_KEY]
    ∧ (ingest_image envA uploadSmall 1 []).response.titleOf
        = "20240101 120000 0011223344556677"
    ∧ humanize (pyStem uploadSmall.filename) = "My Photo"
    ∧ (ingest_image envA uploadSmall 1 []).response.titleOf
        ≠ humanize (pyStem uploadSmall.filename) :=
  ⟨by decide, by decide, by decide, by decide⟩

/-- C4 amended: when the caption generator fails and no other warning
fires, the ingestion still succeeds and the response contains exactly
the one captioning warning; the fallback title, however, is the
humanized stem of the stored content-addressed filename (the name
component of the asset path handed to the adapter), not of the
user-supplied filename. -/
theorem c4_fallback_title_from_stored_name (env : Env) (file : Upload) (uid : Nat)
    (store0 : List String) (e : Err)
    (hmem : file.content_type ∈ allowed_types)
    (hsize : file.contents.length ≤ max_size)
    (hdb : env.dbFails = false)
    (hsniff : sniffWarnings env.detected file.content_type = [])
    (hai : (ingestAi env file).2 = some e)
    (hgv : (ingestVariants env file).2 = none) :
    (ingest_image env file uid store0).response.isOk = true
    ∧ (ingest_image env file uid store0).response.warningList = [errStr e]
    ∧ (ingest_image env file uid store0).response.titleOf
        = humanize (pyStem (pathName (galleryPath (ingestStoredName env file)))) := by
  have hfb : (ingestAi env file).1
      = get_fallback_metadata (galleryPath (ingestStoredName env file)) :=
    analyze_image_fallback env.ai (galleryPath (ingestStoredName env file)) e hai
  rw [ingest_validated env file uid store0 hmem hsize]
  simp only [ingest_pipeline, hdb, Bool.false_eq_true, if_false]
  refine ⟨rfl, ?_, ?_⟩
  · simp only [Response.warningList, ingestWarnings, hsniff, hai, hgv]
    simp
  · simp only [Response.titleOf, hfb]
    rfl

/-- C4 witness: concrete application of the amended claim. -/
theorem c4_witness :
    (uploadSmall.content_type ∈ allowed_types
      ∧ uploadSmall.contents.length ≤ max_size
      ∧ envA.dbFails = false
      ∧ sniffWarnings envA.detected uploadSmall.content_type = []
      ∧ (ingestAi envA uploadSmall).2 = some .AUTH_MISSING_KEY
      ∧ (ingestVariants envA uploadSmall).2 = none)
    ∧ (ingest_image envA uploadSmall 1 []).response.titleOf
        = humanize (pyStem (pathName (galleryPath (ingestStoredName envA uploadSmall)))) := by
  have hai : (ingestAi envA uploadSmall).2 = some .AUTH_MISSING_KEY := by decide
  have hgv : (ingestVariants envA uploadSmall).2 = none := by decide
  exact ⟨⟨by decide, by decide, by decide, by decide, hai, hgv⟩,
    (c4_fallback_title_from_stored_name envA uploadSmall 1 [] .AUTH_MISSING_KEY
      (by decide) (by decide) (by decide) (by decide) hai hgv).2.2⟩

/-! ## Claim C10: the format mismatch warning -/

/-- C10: when PIL decodes the stored file, the FORMAT_MISMATCH warning
appears in the success response exactly when the detected MIME string
differs from the declared content-type string; in particular an upload
declared image/jpg containing a valid JPEG always receives the warning,
because the detected string image/jpeg differs from image/jpg. -/
theorem c10_format_mismatch_string_compare (env : Env) (file : Upload) (uid : Nat)
    (store0 : List String) (f : String)
    (hmem : file.content_type ∈ allowed_types)
    (hsize : file.contents.length ≤ max_size)
    (hdb : env.dbFails = false)
    (hdet : env.detected = some f) :
    ("FORMAT_MISMATCH" ∈ (ingest_image env file uid store0).response.warningList
      ↔ format_to_mime f ≠ file.content_type)
    ∧ (file.content_type = "image/jpg" → f = "jpeg" →
        "FORMAT_MISMATCH" ∈ (ingest_image env file uid store0).response.warningList) := by
  have hmain : "FORMAT_MISMATCH" ∈ (ingest_image env file uid store0).response.warningList
      ↔ format_to_mime f ≠ file.content_type := by
    rw [ingest_validated env file uid store0 hmem hsize]
    simp only [ingest_pipeline, hdb, Bool.false_eq_true, if_false]
    simp only [Response.warningList, ingestWarnings, hdet, sniffWarnings, List.mem_append]
    have hnai : ¬ "FORMAT_MISMATCH"
        ∈ (match (ingestAi env file).2 with | some e => [errStr e] | none => []) := by
      cases hcase : (ingestAi env file).2 with
      | none => simp
      | some e => simp [Ne.symm (errStr_ne_formatMismatch e)]
    have hngv : ¬ "FORMAT_MISMATCH"
        ∈ (match (ingestVariants env file).2 with | some e => [errStr e] | none => []) := by
      cases hcase : (ingestVariants env file).2 with
      | none => simp
      | some e => simp [Ne.symm (errStr_ne_formatMismatch e)]
    by_cases hne : format_to_mime f = file.content_type
    · simp [hne, hnai, hngv]
    · simp [hne, hnai, hngv]
  refine ⟨hmain, ?_⟩
  intro hct hf
  refine hmain.mpr ?_
  rw [hct, hf]
  decide

/-- C10 witness: an upload declared image/jpg whose bytes decode as
JPEG receives the FORMAT_MISMATCH warning. -/
theorem c10_witness :
    (uploadJpg.content_type ∈ allowed_types
      ∧ uploadJpg.contents.length ≤ max_size
      ∧ envA.dbFails = false
      ∧ envA.detected = some "jpeg"
      ∧ uploadJpg.content_type = "image/jpg")
    ∧ "FORMAT_MISMATCH" ∈ (ingest_image envA uploadJpg 1 []).response.warningList :=
  ⟨⟨by decide, by decide, by decide, by decide, by decide⟩,
    (c10_format_mismatch_string_compare envA uploadJpg 1 [] "jpeg"
      (by decide) (by decide) (by decide) (by decide)).2 (by decide) rfl⟩

end Photo
